import Mathlib

/-!
Verification of the cryptocurrency price-threshold monitor
(`src/services/WebSocketService.js`, `src/services/NotificationService.js`
which also carries `PriceMonitorService` and the `index.js` bootstrap,
`src/utils/helpers.js`, `src/config.js`).

The JavaScript is shallowly embedded:

* JS number values that matter to the claims are modelled by `JsNum`
  (NaN, one of the two infinities, or a finite value as a rational).
  The finite case abstracts an IEEE double by an exact rational; the
  claims settled here never depend on rounding, only on the
  NaN/Infinity structure and on exact arithmetic with small decimal
  constants.  The two IEEE zeroes are conflated into `fin 0` (no claim
  distinguishes them).
* JS strings are modelled as `List Char`.
* Stateful services become explicit state records with pure transition
  functions; `Date.now()` becomes an explicit `now : Nat` argument
  (milliseconds), and a `setTimeout`-based deletion of a map entry
  after the cooldown period is modelled by an expiry check at read
  time (an entry written at `t` is visible exactly while `now < t +
  cooldownPeriod`, which is when its deletion timer has not yet fired).
* The outbound webhook POST (`NotificationService._sendToWechat`) is an
  external collaborator; its success/failure outcome is an explicit
  boolean argument `sendOk`.
* The `console.*` logging and the string formatting done with `toFixed`
  are side-effect free and are not modelled; the alert message is
  modelled as a record `AlertMessage` carrying the fields interpolated
  into the formatted string.
-/

/-- Result of JavaScript `parseFloat` (or `parseInt`) on a raw wire
field: `NaN`, one of the two infinities, or a finite value.  Note that
`parseFloat` can produce non-finite numbers: the input string
`Infinity` parses to the value `Infinity`, and `isNaN(Infinity)` is
`false`. -/
inductive JsNum where
  | nan : JsNum
  | inf : JsNum
  | neginf : JsNum
  | fin : ℚ → JsNum
deriving DecidableEq, Repr

namespace JsNum

/-- JS `isNaN` on an already-parsed number. -/
def jsIsNaN : JsNum → Bool
  | .nan => true
  | _ => false

/-- JS subtraction on numbers (IEEE semantics on the NaN/Infinity
structure; exact rational arithmetic on finite values). -/
def jsSub : JsNum → JsNum → JsNum
  | .nan, _ => .nan
  | _, .nan => .nan
  | .inf, .inf => .nan
  | .inf, _ => .inf
  | .neginf, .neginf => .nan
  | .neginf, _ => .neginf
  | .fin _, .inf => .neginf
  | .fin _, .neginf => .inf
  | .fin a, .fin b => .fin (a - b)

/-- JS multiplication on numbers. -/
def jsMul : JsNum → JsNum → JsNum
  | .nan, _ => .nan
  | _, .nan => .nan
  | .inf, .inf => .inf
  | .inf, .neginf => .neginf
  | .neginf, .inf => .neginf
  | .neginf, .neginf => .inf
  | .inf, .fin b => if b = 0 then .nan else if b < 0 then .neginf else .inf
  | .fin a, .inf => if a = 0 then .nan else if a < 0 then .neginf else .inf
  | .neginf, .fin b => if b = 0 then .nan else if b < 0 then .inf else .neginf
  | .fin a, .neginf => if a = 0 then .nan else if a < 0 then .inf else .neginf
  | .fin a, .fin b => .fin (a * b)

/-- JS division on numbers: `x/0` is an infinity for finite `x ≠ 0`
and `NaN` for `x = 0`; a finite value divided by an infinity is zero;
an infinity divided by an infinity is `NaN`. -/
def jsDiv : JsNum → JsNum → JsNum
  | .nan, _ => .nan
  | _, .nan => .nan
  | .inf, .inf => .nan
  | .inf, .neginf => .nan
  | .neginf, .inf => .nan
  | .neginf, .neginf => .nan
  | .inf, .fin b => if b < 0 then .neginf else .inf
  | .neginf, .fin b => if b < 0 then .inf else .neginf
  | .fin _, .inf => .fin 0
  | .fin _, .neginf => .fin 0
  | .fin a, .fin b =>
      if b = 0 then (if a = 0 then .nan else if a < 0 then .neginf else .inf)
      else .fin (a / b)

/-- JS strict greater-than on numbers: any comparison with `NaN` is
false. -/
def jsGtB : JsNum → JsNum → Bool
  | .nan, _ => false
  | _, .nan => false
  | .inf, .inf => false
  | .inf, _ => true
  | .neginf, _ => false
  | .fin _, .inf => false
  | .fin _, .neginf => true
  | .fin a, .fin b => decide (b < a)

/-- JS strict less-than on numbers. -/
def jsLtB (a b : JsNum) : Bool := jsGtB b a

/-- JS less-or-equal on numbers: any comparison with `NaN` is false. -/
def jsLeB : JsNum → JsNum → Bool
  | .nan, _ => false
  | _, .nan => false
  | .neginf, _ => true
  | _, .inf => true
  | .inf, _ => false
  | .fin a, .fin b => decide (a ≤ b)
  | .fin _, .neginf => false

/-- JS `x || 0` applied to a number: replaces the falsy values `NaN`
and zero with zero and keeps everything else.  Used by
`_parsePriceData` as `parseFloat(item.vol24h) || 0`. -/
def jsOr0 : JsNum → JsNum
  | .nan => .fin 0
  | x => x

end JsNum

open JsNum

/-! ## Symbol codec (`WebSocketService._convertSymbolForOKX`,
`WebSocketService._convertOKXSymbolBack`, `helpers.isValidSymbol`) -/

/-- Characters of the quote-asset suffix `USDT`. -/
def usdtChars : List Char := ['U', 'S', 'D', 'T']

/-- JS `String.prototype.replace(pat, repl)` with a plain-string
pattern: replaces the first occurrence of `pat`, or returns the string
unchanged when `pat` does not occur. -/
def replaceFirst : List Char → List Char → List Char → List Char
  | [], pat, repl => if pat.isPrefixOf ([] : List Char) then repl else []
  | c :: rest, pat, repl =>
      if pat.isPrefixOf (c :: rest) then repl ++ (c :: rest).drop pat.length
      else c :: replaceFirst rest pat repl

/-- First-occurrence search (JS `str.includes(pat)`), used only in
statements: it characterises when `replaceFirst` removes the intended
occurrence of the pattern. -/
def containsSeg (pat : List Char) : List Char → Bool
  | [] => pat.isPrefixOf ([] : List Char)
  | c :: rest => pat.isPrefixOf (c :: rest) || containsSeg pat rest

/-- Model of `WebSocketService._convertSymbolForOKX`: when the symbol
ends with `USDT`, the base is `symbol.replace('USDT', '')` and the
feed id is the template string of base, separator and `USDT`;
otherwise the symbol passes through unchanged. -/
def convertSymbolForOKX (symbol : List Char) : List Char :=
  if usdtChars.isSuffixOf symbol then
    replaceFirst symbol usdtChars [] ++ ('-' :: usdtChars)
  else symbol

/-- Model of `WebSocketService._convertOKXSymbolBack`:
`okxSymbol.replace('-', '')`, which removes the first separator
only. -/
def convertOKXSymbolBack (okxSymbol : List Char) : List Char :=
  replaceFirst okxSymbol ['-'] []

/-- Uppercase-Latin-letter test, the character class `[A-Z]`. -/
def isUpperAZ (c : Char) : Bool := 'A' ≤ c && c ≤ 'Z'

/-- Model of `helpers.isValidSymbol`, the regex `^[A-Z]{2,10}USDT$`.
A string matches iff it ends in `USDT`, all its characters are
uppercase Latin letters (the suffix `USDT` already is), and its total
length lies between 2+4 and 10+4. -/
def isValidSymbol (s : List Char) : Bool :=
  usdtChars.isSuffixOf s && s.all isUpperAZ &&
    decide (6 ≤ s.length) && decide (s.length ≤ 14)

/-! ## Static configuration (`src/config.js`) -/

/-- Value of `config.websocket.reconnectAttempts`. -/
def configReconnectAttempts : ℕ := 5

/-- Value of `config.websocket.reconnectDelay` in milliseconds. -/
def configReconnectDelay : ℕ := 5000

/-- Value of `config.alerts.priceChangeThreshold`, the band rebase
fraction (1%). -/
def configPriceChangeThreshold : ℚ := 1 / 100

/-- Value of `config.alerts.cooldownPeriod` in milliseconds. -/
def cooldownPeriod : ℕ := 60 * 1000

/-- Value of `config.alerts.maxAlertAge` in milliseconds. -/
def maxAlertAge : ℕ := 60 * 60 * 1000

/-! ## Inbound frame parsing (`WebSocketService`) -/

/-- One element of the `data` array of an inbound ticker frame.  Each
numeric field holds the result of the numeric conversion the source
applies to the raw wire string: `parseFloat` for the prices and the
volume, `parseInt` for `ts`. -/
structure TickerItem where
  instId : List Char
  last : JsNum
  open24h : JsNum
  vol24h : JsNum
  high24h : JsNum
  low24h : JsNum
  ts : JsNum
deriving DecidableEq, Repr

/-- The normalized price update emitted as a `priceUpdate` event (the
return object of `_parsePriceData`).  `lastUpdate` carries the parsed
`ts` field (the `new Date(...)` wrapper is not modelled). -/
structure CryptoData where
  symbol : List Char
  price : JsNum
  priceChange : JsNum
  priceChangePercent : JsNum
  volume : JsNum
  high24h : JsNum
  low24h : JsNum
  lastUpdate : JsNum
deriving DecidableEq, Repr

/-- Model of `WebSocketService._parsePriceData`: drops the item
(returns `null`) exactly when `isNaN(parseFloat(item.last))` or
`isNaN(parseFloat(item.open24h))`; otherwise builds the normalized
update, substituting `0` for falsy `vol24h`/`high24h`/`low24h`
conversions via `|| 0`.  The body is wrapped in try/catch in the
source; the embedding is total, so no exception can escape. -/
def parsePriceData (item : TickerItem) : Option CryptoData :=
  let symbol := convertOKXSymbolBack item.instId
  let last := item.last
  let open24h := item.open24h
  if jsIsNaN last || jsIsNaN open24h then none
  else some
    { symbol := symbol
      price := last
      priceChange := jsSub last open24h
      priceChangePercent := jsMul (jsDiv (jsSub last open24h) open24h) (.fin 100)
      volume := jsOr0 item.vol24h
      high24h := jsOr0 item.high24h
      low24h := jsOr0 item.low24h
      lastUpdate := item.ts }

/-- Shape of a parsed inbound frame as `_handleMessage` distinguishes
them: a subscription acknowledgment (`data.event` equal to
`subscribe`), an error frame (`data.event` equal to `error`), a
ticker-data frame (`data.data` an array with `data.arg.channel` equal
to `tickers`), or anything else. -/
inductive WsMessage where
  | subscribeAck (instId : List Char) : WsMessage
  | errorMsg (msg : List Char) : WsMessage
  | ticker (items : List TickerItem) : WsMessage
  | other : WsMessage

/-- Model of `WebSocketService._handleMessage`, projected onto the
`priceUpdate` events it emits: acks and error frames emit none; a
ticker frame emits one update per item that `_parsePriceData` accepts,
and dropped items are skipped individually. -/
def handleMessage : WsMessage → List CryptoData
  | .subscribeAck _ => []
  | .errorMsg _ => []
  | .ticker items => items.filterMap parsePriceData
  | .other => []

/-! ## Alert deduplication (`NotificationService`) -/

/-- State of `NotificationService.sentAlerts`: alert keys paired with
the `Date.now()` timestamp at which each was recorded. -/
abbrev AlertMap := List (List Char × ℕ)

/-- Membership test `this.sentAlerts.has(alertKey)` at time `now`, in
the timed model: an entry written at `t` is present while its
`setTimeout` deletion (scheduled for `t + cooldownPeriod`) has not yet
fired, i.e. while `now < t + cooldownPeriod`. -/
def hasAlert (m : AlertMap) (k : List Char) (now : ℕ) : Bool :=
  m.any (fun e => e.1 == k && decide (now < e.2 + cooldownPeriod))

/-- Direction of a threshold violation, the `type` argument of
`_handlePriceExceeded` (the strings `max` and `min` in the source). -/
inductive AlertDir where
  | max : AlertDir
  | min : AlertDir
deriving DecidableEq, Repr

/-- Data interpolated into the formatted alert string by
`PriceMonitorService._generateAlertMessage` (the emoji and `toFixed`
string formatting itself is not modelled). -/
structure AlertMessage where
  symbol : List Char
  price : JsNum
  direction : AlertDir
  threshold : JsNum
  percent : JsNum
  newMin : JsNum
  newMax : JsNum
deriving DecidableEq, Repr

/-- Model of `NotificationService.sendWechatAlert content alertKey` at
time `now`, with the webhook outcome (the `_sendToWechat` promise
resolving true or false) passed in as `sendOk`.  Returns the boolean
result and the updated dedup map: suppressed immediately when the key
is present; otherwise the send is attempted, and the key is recorded
(with its cooldown deletion timer) only under `success && alertKey`. -/
def sendWechatAlert (m : AlertMap) (_content : AlertMessage)
    (alertKey : Option (List Char)) (now : ℕ) (sendOk : Bool) :
    Bool × AlertMap :=
  match alertKey with
  | some k =>
      if hasAlert m k now then (false, m)
      else if sendOk then (true, (k, now) :: m) else (false, m)
  | none => (sendOk, m)

/-- Body of the periodic sweep started by
`NotificationService.startCleanupTask`: delete every record older than
`config.alerts.maxAlertAge`. -/
def cleanupSweep (m : AlertMap) (now : ℕ) : AlertMap :=
  m.filter (fun e => !decide (maxAlertAge < now - e.2))

/-! ## Threshold tracking (`PriceMonitorService`) -/

/-- A per-symbol price band, one entry of
`PriceMonitorService.priceThresholds`. -/
structure Band where
  min : JsNum
  max : JsNum
deriving DecidableEq, Repr

/-- The `priceThresholds` object: an association of symbol to band. -/
abbrev ThresholdMap := List (List Char × Band)

/-- JS object-property assignment `obj[key] = v` on an association
list: the new binding shadows and replaces any old binding of `key`,
all other keys keep their values. -/
def setEntry {β : Type} (m : List (List Char × β)) (k : List Char) (v : β) :
    List (List Char × β) :=
  (k, v) :: m.filter (fun e => !(e.1 == k))

/-- Value of `config.symbols.thresholds`, the initial bands (every
configured band has `min = max`). -/
def initialThresholds : ThresholdMap :=
  [ ("SOLUSDT".toList, ⟨.fin 143, .fin 143⟩)
  , ("ETHUSDT".toList, ⟨.fin 2400, .fin 2400⟩)
  , ("BTCUSDT".toList, ⟨.fin 108000, .fin 108000⟩)
  , ("DOGEUSDT".toList, ⟨.fin (165 / 1000), .fin (165 / 1000)⟩)
  , ("OKBUSDT".toList, ⟨.fin 51, .fin 51⟩)
  , ("BNBUSDT".toList, ⟨.fin 630, .fin 630⟩)
  , ("APTUSDT".toList, ⟨.fin (45 / 10), .fin (45 / 10)⟩) ]

/-- Model of `PriceMonitorService._updateThresholds`: rebase the band
for `symbol` around `currentPrice`, `min = p * (1 - f)` and
`max = p * (1 + f)` with `f = config.alerts.priceChangeThreshold`. -/
def updateThresholds (m : ThresholdMap) (symbol : List Char)
    (currentPrice : JsNum) : ThresholdMap :=
  setEntry m symbol
    ⟨ jsMul currentPrice (.fin (1 - configPriceChangeThreshold))
    , jsMul currentPrice (.fin (1 + configPriceChangeThreshold)) ⟩

/-- Model of `PriceMonitorService.setThresholds`: manual override that
replaces the band unconditionally with the given `{min, max}`, with no
validation of the arguments. -/
def setThresholds (m : ThresholdMap) (symbol : List Char)
    (mn mx : JsNum) : ThresholdMap :=
  setEntry m symbol ⟨mn, mx⟩

/-- Decidable form of the PriceBand invariant of the spec: every
stored band satisfies `min ≤ max` (under JS comparison). -/
def bandsOK (m : ThresholdMap) : Bool := m.all (fun e => jsLeB e.2.min e.2.max)

/-- Combined mutable state of `PriceMonitorService` together with the
`NotificationService` it owns. -/
structure MonitorState where
  cryptoData : List (List Char × CryptoData)
  priceThresholds : ThresholdMap
  sentAlerts : AlertMap
deriving DecidableEq, Repr

/-- Model of `PriceMonitorService._generateAlertMessage`, as the
record of values interpolated into the alert string: current price,
direction, the violated threshold, the percentage taken from the
tick field `priceChangePercent` (labelled as the 24h change in the
formatted string), and the freshly rebased band re-read from
`this.priceThresholds[symbol]` (always present on the call path,
which runs after `_updateThresholds`; the fallback below is
unreachable there). -/
def generateAlertMessage (m : ThresholdMap) (symbol : List Char)
    (data : CryptoData) (ty : AlertDir) (threshold : JsNum) : AlertMessage :=
  let newThresholds := (m.lookup symbol).getD ⟨.nan, .nan⟩
  { symbol := symbol
    price := data.price
    direction := ty
    threshold := threshold
    percent := data.priceChangePercent
    newMin := newThresholds.min
    newMax := newThresholds.max }

/-- The dedup key built in `_handlePriceExceeded`: symbol, underscore,
direction, and the suffix `_price_exceeded`. -/
def alertKeyOf (symbol : List Char) (ty : AlertDir) : List Char :=
  symbol ++ (match ty with
    | .max => "_max_price_exceeded".toList
    | .min => "_min_price_exceeded".toList)

/-- Model of `PriceMonitorService._handlePriceExceeded`: rebase the
band, build the message from the updated thresholds, then hand it to
`sendWechatAlert` under the symbol-plus-direction dedup key (fire and
forget; the send outcome `sendOk` belongs to the webhook
collaborator). -/
def handlePriceExceeded (st : MonitorState) (symbol : List Char)
    (data : CryptoData) (ty : AlertDir) (threshold : JsNum)
    (now : ℕ) (sendOk : Bool) : MonitorState × Option AlertMessage :=
  let thresholds := updateThresholds st.priceThresholds symbol data.price
  let message := generateAlertMessage thresholds symbol data ty threshold
  let sent := sendWechatAlert st.sentAlerts message
    (some (alertKeyOf symbol ty)) now sendOk
  ({ st with priceThresholds := thresholds, sentAlerts := sent.2 }, some message)

/-- Model of `PriceMonitorService._checkPriceThresholds`: no
configured band means a warning and no evaluation; otherwise
`price > max` fires the upper case, else `price < min` fires the lower
case, else nothing happens. -/
def checkPriceThresholds (st : MonitorState) (symbol : List Char)
    (data : CryptoData) (now : ℕ) (sendOk : Bool) :
    MonitorState × Option AlertMessage :=
  match st.priceThresholds.lookup symbol with
  | none => (st, none)
  | some thresholds =>
      if jsGtB data.price thresholds.max then
        handlePriceExceeded st symbol data .max thresholds.max now sendOk
      else if jsLtB data.price thresholds.min then
        handlePriceExceeded st symbol data .min thresholds.min now sendOk
      else (st, none)

/-- Model of `PriceMonitorService.updateCryptoData`: store the tick as
the new latest price for the symbol, then check thresholds (the
function `_logPriceChange` only writes to the console and is not
modelled). -/
def updateCryptoData (st : MonitorState) (symbol : List Char)
    (data : CryptoData) (now : ℕ) (sendOk : Bool) :
    MonitorState × Option AlertMessage :=
  checkPriceThresholds
    { st with cryptoData := setEntry st.cryptoData symbol data }
    symbol data now sendOk

/-- The `priceUpdate` wiring in `index.js` (each emitted update is fed
to `priceMonitorService.updateCryptoData`) composed with
`_handleMessage`: every update emitted for a frame reaches the monitor
in order. -/
def processFrame (st : MonitorState) (msg : WsMessage) (now : ℕ)
    (sendOk : Bool) : MonitorState :=
  (handleMessage msg).foldl
    (fun s d => (updateCryptoData s d.symbol d now sendOk).1) st

/-- Model of `helpers.calculatePriceChangePercent`: previous price as
denominator, with an explicit guard returning `0` when either input is
`NaN` or the previous price is exactly zero.  (The `typeof` checks of
the source cannot fail here since the inputs of the model are
numbers.) -/
def calculatePriceChangePercent (currentPrice previousPrice : JsNum) : JsNum :=
  if jsIsNaN currentPrice || jsIsNaN previousPrice || previousPrice = .fin 0
  then .fin 0
  else jsMul (jsDiv (jsSub currentPrice previousPrice) previousPrice) (.fin 100)

/-! ## Connection state machine (`WebSocketService`) -/

/-- Connection-level mutable state of `WebSocketService` that the
claims touch: the `isConnected` flag, the reconnect attempt counter,
whether the heartbeat interval is running, and the close code the
service last requested on the transport via `ws.close`. -/
structure WSState where
  isConnected : Bool
  reconnectAttempts : ℕ
  heartbeatOn : Bool
  closeRequested : Option ℕ
deriving DecidableEq, Repr

/-- State at construction time. -/
def initialWSState : WSState :=
  { isConnected := false, reconnectAttempts := 0
    heartbeatOn := false, closeRequested := none }

/-- Result of running the close handler or `_attemptReconnect`: the
new state, the backoff delay of the reconnect `setTimeout` if one was
scheduled, and whether `maxReconnectAttemptsReached` was emitted. -/
structure ReconnectOutcome where
  state : WSState
  scheduledDelay : Option ℕ
  maxReached : Bool
deriving DecidableEq, Repr

/-- Model of `WebSocketService._attemptReconnect`: at or above the
attempt cap, emit the terminal signal and schedule nothing; otherwise
increment the counter and schedule `connect()` after
`config.websocket.reconnectDelay * reconnectAttempts`. -/
def attemptReconnect (st : WSState) : ReconnectOutcome :=
  if configReconnectAttempts ≤ st.reconnectAttempts then
    ⟨st, none, true⟩
  else
    let attempts := st.reconnectAttempts + 1
    ⟨{ st with reconnectAttempts := attempts },
     some (configReconnectDelay * attempts), false⟩

/-- The close handler installed by `connect()`: clear the connect
timeout, mark disconnected, stop the heartbeat, emit the
`disconnected` signal, and call `_attemptReconnect` — unconditionally,
whatever caused the close. -/
def handleClose (st : WSState) : ReconnectOutcome :=
  attemptReconnect { st with isConnected := false, heartbeatOn := false }

/-- The open handler installed by `connect()`: mark connected, reset
the attempt counter to 0, start the heartbeat (resubscription after
`subscriptionDelay` touches no state modelled here). -/
def handleOpen (st : WSState) : WSState :=
  { st with isConnected := true, reconnectAttempts := 0, heartbeatOn := true }

/-- Model of `WebSocketService.disconnect`: stop the heartbeat,
request a transport close with the normal-closure code 1000 (the `ws`
reference is dropped, but the close handler stays attached to the
socket object and will still run when the close completes), mark
disconnected, reset the attempt counter to 0.  No flag records that
this close was caller-initiated and no pending reconnect timer is
cancelled. -/
def disconnect (st : WSState) : WSState :=
  { st with
      heartbeatOn := false
      closeRequested := some 1000
      isConnected := false
      reconnectAttempts := 0 }

/-- State after the connected service has seen `n` consecutive failed
connects, each failure surfacing as a close event. -/
def afterCloses : ℕ → WSState
  | 0 => handleOpen initialWSState
  | n + 1 => (handleClose (afterCloses n)).state

/-! ## Fixed example values used in witnesses and counterexamples -/

/-- A fixed alert message used to instantiate the (unused) content
argument of `sendWechatAlert`. -/
def msgEx : AlertMessage :=
  { symbol := [], price := .fin 0, direction := .max, threshold := .fin 0
    percent := .fin 0, newMin := .fin 0, newMax := .fin 0 }

/-- The canonical symbol `BTCUSDT` as a character list. -/
def btcSym : List Char := "BTCUSDT".toList

/-- The dedup key for an upper crossing on `BTCUSDT`. -/
def keyBtcMax : List Char := "BTCUSDT_max_price_exceeded".toList

/-- The dedup key for an upper crossing on `ETHUSDT`. -/
def keyEthMax : List Char := "ETHUSDT_max_price_exceeded".toList

/-- The dedup key for a lower crossing on `ETHUSDT`. -/
def keyEthMin : List Char := "ETHUSDT_min_price_exceeded".toList

/-- A valid symbol whose base segment contains the substring `USDT`
before the suffix. -/
def oddSym : List Char := "AUSDTBUSDT".toList

/-- A ticker item whose `last` is 111 and whose `open24h` is 50. -/
def itemC7 : TickerItem :=
  ⟨"BTC-USDT".toList, .fin 111, .fin 50, .fin 0, .fin 0, .fin 0, .fin 0⟩

/-- The parsed update for `itemC7`: 24h change 61, 24h percent change
122. -/
def dC7 : CryptoData :=
  ⟨"BTCUSDT".toList, .fin 111, .fin 61, .fin 122, .fin 0, .fin 0, .fin 0, .fin 0⟩

/-- A previously stored tick for `BTCUSDT` with price 100. -/
def prevC7 : CryptoData :=
  ⟨"BTCUSDT".toList, .fin 100, .fin 0, .fin 0, .fin 0, .fin 0, .fin 0, .fin 0⟩

/-- A monitor state holding `prevC7` as the latest `BTCUSDT` price and
the band 100..110 for `BTCUSDT`. -/
def stC7 : MonitorState :=
  ⟨[(btcSym, prevC7)], [(btcSym, ⟨.fin 100, .fin 110⟩)], []⟩

/-- The alert message produced when `dC7` arrives in state `stC7`. -/
def msgC7 : AlertMessage :=
  ⟨btcSym, .fin 111, .max, .fin 110, .fin 122, .fin (10989 / 100), .fin (11211 / 100)⟩

/-- A ticker item whose `last` field parsed to `NaN`. -/
def itemNaN : TickerItem :=
  ⟨"BTC-USDT".toList, .nan, .fin 100, .fin 1, .fin 1, .fin 1, .fin 0⟩

/-- A ticker item whose `last` field parsed to `Infinity` (the raw
string `Infinity`, accepted by `parseFloat`), a non-finite number that
is not `NaN`. -/
def itemInf : TickerItem :=
  ⟨"BTC-USDT".toList, .inf, .fin 100, .fin 1, .fin 1, .fin 1, .fin 0⟩

/-- A ticker item with finite prices and `NaN` volume and range
fields. -/
def itemNanVol : TickerItem :=
  ⟨"BTC-USDT".toList, .fin 111, .fin 100, .nan, .nan, .nan, .fin 0⟩

/-! ## Helper lemmas -/

/-- Looking up a key right after assigning it returns the assigned
value. -/
theorem lookup_setEntry_self {β : Type} (m : List (List Char × β))
    (k : List Char) (v : β) :
    List.lookup k (setEntry m k v) = some v := by
  simp [setEntry, List.lookup]

/-- A pointwise property of all list entries survives filtering. -/
theorem all_of_filter {α : Type} (P Q : α → Bool) (l : List α)
    (h : l.all P = true) : (l.filter Q).all P = true := by
  simp only [List.all_eq_true] at *
  exact fun a ha => h a (List.mem_filter.mp ha).1

/-- Appending the suffix `USDT` to a nonempty string cannot create a
new occurrence of `USDT` at position zero: the pattern would have to
straddle the boundary, which the letters of `USDT` rule out. -/
theorem usdt_prefix_stable (c : Char) (rest : List Char) :
    usdtChars.isPrefixOf (c :: (rest ++ usdtChars)) = usdtChars.isPrefixOf (c :: rest) := by
  have hSU : (('S' : Char) == 'U') = false := rfl
  have hDU : (('D' : Char) == 'U') = false := rfl
  have hTU : (('T' : Char) == 'U') = false := rfl
  match rest with
  | [] => simp [usdtChars, List.isPrefixOf, hSU]
  | [b] => simp [usdtChars, List.isPrefixOf, hDU]
  | [b, b2] => simp [usdtChars, List.isPrefixOf, hTU]
  | b :: b2 :: b3 :: t => simp [usdtChars, List.isPrefixOf]

/-- When the base contains no occurrence of `USDT`, the replacement
performed by `_convertSymbolForOKX` removes exactly the trailing
suffix. -/
theorem replaceFirst_usdt_suffix (base : List Char)
    (h : containsSeg usdtChars base = false) :
    replaceFirst (base ++ usdtChars) usdtChars [] = base := by
  induction base with
  | nil => simp only [List.nil_append]; decide
  | cons c rest ih =>
      rw [containsSeg, Bool.or_eq_false_iff] at h
      have hst := usdt_prefix_stable c rest
      simp only [List.cons_append, List.append_eq, replaceFirst]
      rw [hst, h.1]
      simp only [Bool.false_eq_true, if_false]
      exact congrArg (c :: ·) (ih h.2)

/-- When the base consists of uppercase letters, removing the first
separator undoes its insertion. -/
theorem replaceFirst_dash (base tail : List Char)
    (h : base.all isUpperAZ = true) :
    replaceFirst (base ++ '-' :: tail) ['-'] [] = base ++ tail := by
  induction base with
  | nil => simp [replaceFirst, List.isPrefixOf]
  | cons c rest ih =>
      rw [List.all_cons, Bool.and_eq_true] at h
      have hcd : c ≠ '-' := by
        intro he; rw [he] at h; exact absurd h.1 (by decide)
      have hne : (['-'] : List Char).isPrefixOf (c :: (rest ++ '-' :: tail)) = false := by
        simp [List.isPrefixOf, beq_eq_false_iff_ne.mpr (Ne.symm hcd)]
      simp only [List.cons_append, List.append_eq, replaceFirst]
      rw [hne]
      simp only [Bool.false_eq_true, if_false]
      exact congrArg (c :: ·) (ih h.2)

/-- The suffix `USDT` is always detected on a string built by
appending it. -/
theorem usdt_suffix_append (base : List Char) :
    usdtChars.isSuffixOf (base ++ usdtChars) = true := by
  simp [List.isSuffixOf, usdtChars, List.isPrefixOf]

/-- Concrete evaluation of the full monitor step on the example state
`stC7` and update `dC7`: upper crossing, band rebased to
104.89..112.11 times one hundredth, dedup record created, message
`msgC7`. -/
theorem updateC7_eq :
    updateCryptoData stC7 btcSym dC7 0 true =
      (⟨[(btcSym, dC7)],
        [(btcSym, ⟨.fin (10989 / 100), .fin (11211 / 100)⟩)],
        [(alertKeyOf btcSym .max, 0)]⟩, some msgC7) := by
  norm_num [updateCryptoData, checkPriceThresholds, stC7, dC7, prevC7, msgC7,
    btcSym, handlePriceExceeded, generateAlertMessage, updateThresholds, setEntry,
    sendWechatAlert, hasAlert, List.lookup, JsNum.jsGtB, JsNum.jsMul,
    configPriceChangeThreshold, List.filter]

/-! ## Claim theorems -/

/-- Claim C1, counterexample: the claim states that a failed webhook
delivery still consumes the cooldown slot (the dedup record is created
independently of the send result).  On the code, a failed delivery
under the key for an upper `BTCUSDT` crossing leaves the dedup map
empty, and a second crossing with the same key 1000 ms later (well
inside the 60 s window) is dispatched, not suppressed. -/
theorem failed_send_consumes_slot_cex :
    (sendWechatAlert [] msgEx (some keyBtcMax) 0 false).2 = [] ∧
    (sendWechatAlert ((sendWechatAlert [] msgEx (some keyBtcMax) 0 false).2)
        msgEx (some keyBtcMax) 1000 true).1 = true := by
  decide

/-- Claim C1, amended: once a crossing alert has been successfully
delivered, a second attempt under the same key within the cooldown
window is suppressed regardless of the outcome the second delivery
would have had; but a failed delivery does not create the dedup record
and does not consume the cooldown slot — `sendWechatAlert` records the
AlertRecord only when the send succeeded. -/
theorem alert_record_only_on_success (m : AlertMap) (k : List Char)
    (c₁ c₂ c₃ : AlertMessage) (now nowLater : ℕ) (b : Bool)
    (hwin : nowLater < now + cooldownPeriod)
    (hfresh : hasAlert m k now = false) :
    (sendWechatAlert m c₁ (some k) now true).1 = true ∧
    (sendWechatAlert (sendWechatAlert m c₁ (some k) now true).2 c₂ (some k) nowLater b).1
      = false ∧
    (sendWechatAlert m c₃ (some k) now false).2 = m ∧
    (sendWechatAlert m c₃ (some k) now false).1 = false := by
  have hrec : (sendWechatAlert m c₁ (some k) now true) = (true, (k, now) :: m) := by
    simp [sendWechatAlert, hfresh]
  have hhas : hasAlert ((k, now) :: m) k nowLater = true := by
    simp [hasAlert, List.any_cons, hwin]
  refine ⟨by rw [hrec], ?_, ?_, ?_⟩
  · rw [hrec]
    simp [sendWechatAlert, hhas]
  · simp [sendWechatAlert, hfresh]
  · simp [sendWechatAlert, hfresh]

/-- Claim C1, witness: the amended theorem applied at the key for an
upper `BTCUSDT` crossing, first send at 0 ms, second attempt at
59999 ms. -/
theorem alert_record_only_on_success_witness :
    (sendWechatAlert [] msgEx (some keyBtcMax) 0 true).1 = true ∧
    (sendWechatAlert (sendWechatAlert [] msgEx (some keyBtcMax) 0 true).2
        msgEx (some keyBtcMax) 59999 false).1 = false ∧
    (sendWechatAlert [] msgEx (some keyBtcMax) 0 false).2 = [] ∧
    (sendWechatAlert [] msgEx (some keyBtcMax) 0 false).1 = false :=
  alert_record_only_on_success [] keyBtcMax msgEx msgEx msgEx 0 59999 false
    (by decide) (by decide)

/-- Claim C2: after a caller-initiated `disconnect()`, the heartbeat
timer is stopped, the transport is closed with the normal-closure
code 1000, the attempt counter is reset to 0 and the service is
disconnected — these parts hold — but the claim additionally states
that no reconnect is ever scheduled as a consequence of that close.
The close handler attached by `connect()` calls `_attemptReconnect`
unconditionally, so when the close event of the caller-initiated close
fires, a reconnect is scheduled after 5000 ms (the counter having just
been reset to 0); the code keeps no flag distinguishing
caller-initiated closes.  This contradicts the spec, which is clearly
the intent (a `disconnect()` that revives its own connection defeats
its purpose and `index.js` relies on it during shutdown); the code is
the slip. -/
theorem disconnect_close_schedules_reconnect :
    ∀ st : WSState,
      (disconnect st).heartbeatOn = false ∧
      (disconnect st).closeRequested = some 1000 ∧
      (disconnect st).reconnectAttempts = 0 ∧
      (disconnect st).isConnected = false ∧
      (handleClose (disconnect st)).scheduledDelay = some 5000 ∧
      (handleClose (disconnect st)).maxReached = false := by
  intro st
  refine ⟨rfl, rfl, rfl, rfl, ?_, ?_⟩ <;>
    simp [handleClose, attemptReconnect, disconnect, configReconnectAttempts,
      configReconnectDelay]

/-- Claim C3: with a configured band, a price strictly above `max` is
an upper crossing, a price strictly below `min` is a lower crossing,
and a price equal to a bound or inside the band changes neither the
band nor the alert state and produces no message; on any crossing the
band is rebased to `min = price * (1 - f)`, `max = price * (1 + f)`
with `f = configPriceChangeThreshold = 1/100`. -/
theorem crossing_classification_and_rebase (st : MonitorState)
    (symbol : List Char) (data : CryptoData) (thr : Band) (now : ℕ) (sendOk : Bool)
    (hb : st.priceThresholds.lookup symbol = some thr) :
    (jsGtB data.price thr.max = true →
      (updateCryptoData st symbol data now sendOk).2.map AlertMessage.direction
        = some .max ∧
      (updateCryptoData st symbol data now sendOk).1.priceThresholds.lookup symbol =
        some ⟨jsMul data.price (.fin (1 - configPriceChangeThreshold)),
              jsMul data.price (.fin (1 + configPriceChangeThreshold))⟩) ∧
    (jsGtB data.price thr.max = false → jsLtB data.price thr.min = true →
      (updateCryptoData st symbol data now sendOk).2.map AlertMessage.direction
        = some .min ∧
      (updateCryptoData st symbol data now sendOk).1.priceThresholds.lookup symbol =
        some ⟨jsMul data.price (.fin (1 - configPriceChangeThreshold)),
              jsMul data.price (.fin (1 + configPriceChangeThreshold))⟩) ∧
    (jsGtB data.price thr.max = false → jsLtB data.price thr.min = false →
      (updateCryptoData st symbol data now sendOk).1.priceThresholds
        = st.priceThresholds ∧
      (updateCryptoData st symbol data now sendOk).1.sentAlerts = st.sentAlerts ∧
      (updateCryptoData st symbol data now sendOk).2 = none) := by
  refine ⟨fun hgt => ?_, fun hgt hlt => ?_, fun hgt hlt => ?_⟩ <;>
    simp [updateCryptoData, checkPriceThresholds, hb, hgt, handlePriceExceeded,
          generateAlertMessage, updateThresholds, lookup_setEntry_self] <;>
    simp [hlt, lookup_setEntry_self]

/-- Claim C3, witness: the spec example — band 100..110 and tick price
111 yield an upper crossing and the rebased band 109.89..112.11. -/
theorem crossing_classification_and_rebase_witness :
    (updateCryptoData ⟨[], [(btcSym, ⟨.fin 100, .fin 110⟩)], []⟩ btcSym
        ⟨btcSym, .fin 111, .fin 11, .fin 11, .fin 0, .fin 0, .fin 0, .fin 0⟩
        0 true).2.map AlertMessage.direction = some .max ∧
    (updateCryptoData ⟨[], [(btcSym, ⟨.fin 100, .fin 110⟩)], []⟩ btcSym
        ⟨btcSym, .fin 111, .fin 11, .fin 11, .fin 0, .fin 0, .fin 0, .fin 0⟩
        0 true).1.priceThresholds.lookup btcSym =
      some ⟨.fin (10989 / 100), .fin (11211 / 100)⟩ := by
  have h := (crossing_classification_and_rebase
    ⟨[], [(btcSym, ⟨.fin 100, .fin 110⟩)], []⟩ btcSym
    ⟨btcSym, .fin 111, .fin 11, .fin 11, .fin 0, .fin 0, .fin 0, .fin 0⟩
    ⟨.fin 100, .fin 110⟩ 0 true (by decide)).1 (by decide)
  refine ⟨h.1, ?_⟩
  rw [h.2]
  norm_num [JsNum.jsMul, configPriceChangeThreshold]

/-- Claim C4: deduplication is per alert key and cooldown-window
based.  Starting from an empty dedup map, a first successful dispatch
under key `k` at time `t` returns true; a second attempt under `k`
within the window returns false whatever its own delivery outcome
would have been; an attempt at or after `t + cooldownPeriod`
dispatches again; and an attempt under a distinct key (other symbol or
opposite direction) inside the window still dispatches. -/
theorem dedup_per_key_and_window (k kOther : List Char)
    (c₁ c₂ c₃ c₄ : AlertMessage) (t t₁ t₂ : ℕ) (b : Bool)
    (hne : k ≠ kOther) (hwin : t₁ < t + cooldownPeriod)
    (hexp : t + cooldownPeriod ≤ t₂) :
    (sendWechatAlert [] c₁ (some k) t true).1 = true ∧
    (sendWechatAlert (sendWechatAlert [] c₁ (some k) t true).2 c₂ (some k) t₁ b).1
      = false ∧
    (sendWechatAlert (sendWechatAlert [] c₁ (some k) t true).2 c₃ (some k) t₂ true).1
      = true ∧
    (sendWechatAlert (sendWechatAlert [] c₁ (some k) t true).2 c₄ (some kOther) t₁ true).1
      = true := by
  have hrec : (sendWechatAlert [] c₁ (some k) t true) = (true, [(k, t)]) := by
    simp [sendWechatAlert, hasAlert]
  refine ⟨by rw [hrec], ?_, ?_, ?_⟩ <;> rw [hrec]
  · simp [sendWechatAlert, hasAlert, hwin]
  · have hnot : ¬ t₂ < t + cooldownPeriod := by omega
    simp [sendWechatAlert, hasAlert, hnot]
  · simp [sendWechatAlert, hasAlert, beq_eq_false_iff_ne.mpr hne]

/-- Claim C4, witness: upper-crossing key for `ETHUSDT` dispatched at
100 ms, suppressed at 60099 ms, dispatched again at 60100 ms; the
lower-crossing key for the same symbol dispatches inside the window. -/
theorem dedup_per_key_and_window_witness :
    (sendWechatAlert [] msgEx (some keyEthMax) 100 true).1 = true ∧
    (sendWechatAlert (sendWechatAlert [] msgEx (some keyEthMax) 100 true).2
        msgEx (some keyEthMax) 60099 true).1 = false ∧
    (sendWechatAlert (sendWechatAlert [] msgEx (some keyEthMax) 100 true).2
        msgEx (some keyEthMax) 60100 true).1 = true ∧
    (sendWechatAlert (sendWechatAlert [] msgEx (some keyEthMax) 100 true).2
        msgEx (some keyEthMin) 60099 true).1 = true :=
  dedup_per_key_and_window keyEthMax keyEthMin msgEx msgEx msgEx msgEx
    100 60099 60100 true (by decide) (by decide) (by decide)

/-- Claim C5: reconnect backoff is linear — starting from a successful
connect, five consecutive failed connects schedule reconnects after
5000, 10000, 15000, 20000 and 25000 ms with no terminal signal; the
close following the fifth failed reconnect emits
`maxReconnectAttemptsReached` and schedules nothing; and the open
handler resets the attempt counter to 0 for every state. -/
theorem reconnect_backoff_linear_and_exhaustion :
    ((handleClose (afterCloses 0)).scheduledDelay = some 5000 ∧
     (handleClose (afterCloses 1)).scheduledDelay = some 10000 ∧
     (handleClose (afterCloses 2)).scheduledDelay = some 15000 ∧
     (handleClose (afterCloses 3)).scheduledDelay = some 20000 ∧
     (handleClose (afterCloses 4)).scheduledDelay = some 25000) ∧
    ((handleClose (afterCloses 0)).maxReached = false ∧
     (handleClose (afterCloses 1)).maxReached = false ∧
     (handleClose (afterCloses 2)).maxReached = false ∧
     (handleClose (afterCloses 3)).maxReached = false ∧
     (handleClose (afterCloses 4)).maxReached = false) ∧
    ((handleClose (afterCloses 5)).scheduledDelay = none ∧
     (handleClose (afterCloses 5)).maxReached = true) ∧
    (∀ st : WSState, (handleOpen st).reconnectAttempts = 0) :=
  ⟨by decide, by decide, by decide, fun _ => rfl⟩

/-- Claim C6, counterexample: the claim states that an item whose
`last` does not parse as a finite number is dropped.  The validity
check of `_parsePriceData` is `isNaN` only, and `parseFloat` maps the
raw string `Infinity` to the non-finite, non-NaN value `Infinity`: the
item `itemInf` (with `last = Infinity`) is accepted and emitted as a
price update rather than dropped. -/
theorem nonfinite_tick_accepted_cex :
    (parsePriceData itemInf).isSome = true ∧
    handleMessage (.ticker [itemInf]) ≠ [] := by
  decide

/-- Claim C6, amended: for every inbound ticker item whose `last` or
`open24h` parses to `NaN`, the parser returns `null`, the item is
dropped (no `priceUpdate` is emitted for a frame containing only it),
the stored latest price of every symbol is left unchanged, and — the
frame-handling path being a total function in this model — no
exception propagates.  (Non-finite but non-NaN parse results, such as
`Infinity`, are accepted.) -/
theorem nan_tick_dropped (item : TickerItem) (st : MonitorState)
    (now : ℕ) (sendOk : Bool)
    (h : (jsIsNaN item.last || jsIsNaN item.open24h) = true) :
    parsePriceData item = none ∧
    handleMessage (.ticker [item]) = [] ∧
    processFrame st (.ticker [item]) now sendOk = st := by
  have hp : parsePriceData item = none := by
    simp [parsePriceData, h]
  refine ⟨hp, ?_, ?_⟩ <;> simp [handleMessage, processFrame, hp]

/-- Claim C6, witness: the amended theorem applied to `itemNaN` (whose
`last` parsed to `NaN`) against the empty monitor state. -/
theorem nan_tick_dropped_witness :
    parsePriceData itemNaN = none ∧
    handleMessage (.ticker [itemNaN]) = [] ∧
    processFrame ⟨[], [], []⟩ (.ticker [itemNaN]) 0 true = ⟨[], [], []⟩ :=
  nan_tick_dropped itemNaN ⟨[], [], []⟩ 0 true rfl

/-- Claim C7, counterexample: the claim states that the percent-change
carried in a crossing message is computed with the price of the
previous tick as denominator.  In state `stC7` the previous `BTCUSDT`
price is 100 and the incoming tick (price 111, 24h open 50) parses
with `priceChangePercent = 122`; the crossing message carries 122 —
the 24h figure — whereas the formula of the claim gives
`(111 - 100) / 100 * 100 = 11`. -/
theorem alert_percent_not_previous_price_cex :
    parsePriceData itemC7 = some dC7 ∧
    (stC7.cryptoData.lookup btcSym).map CryptoData.price = some (.fin 100) ∧
    (updateCryptoData stC7 btcSym dC7 0 true).2.map AlertMessage.percent =
      some (.fin 122) ∧
    (JsNum.fin 122) ≠ .fin ((111 - 100) / 100 * 100) := by
  refine ⟨?_, by decide, ?_, ?_⟩
  · simp [parsePriceData, itemC7, dC7, jsIsNaN, jsSub, jsDiv, jsMul]
    norm_num
    exact ⟨by decide, by decide⟩
  · rw [updateC7_eq]
    decide
  · simp only [ne_eq, JsNum.fin.injEq]
    norm_num

/-- Claim C7, amended: the percent-change carried in a crossing
message is the `priceChangePercent` field of the tick itself, which
the parser computes with the 24h open as denominator —
`(last - open24h) / open24h * 100` — not with the price of the
previous tick; the helper `calculatePriceChangePercent` does implement
previous-price-as-denominator semantics and returns 0 on a zero
previous price (never a division error), but it is not invoked on the
alert path. -/
theorem alert_percent_is_open24h_change (st : MonitorState)
    (symbol : List Char) (data : CryptoData) (now : ℕ) (sendOk : Bool) :
    (∀ m : AlertMessage, (updateCryptoData st symbol data now sendOk).2 = some m →
      m.percent = data.priceChangePercent) ∧
    (∀ (item : TickerItem) (a b : ℚ), item.last = .fin a → item.open24h = .fin b →
      b ≠ 0 →
      (parsePriceData item).map CryptoData.priceChangePercent =
        some (.fin ((a - b) / b * 100))) ∧
    (∀ cur : JsNum, calculatePriceChangePercent cur (.fin 0) = .fin 0) := by
  refine ⟨fun m hm => ?_, fun item a b hl ho hb => ?_, fun cur => ?_⟩
  · unfold updateCryptoData checkPriceThresholds at hm
    split at hm
    · simp at hm
    · split at hm
      · simp [handlePriceExceeded, generateAlertMessage] at hm
        rw [← hm]
      · split at hm
        · simp [handlePriceExceeded, generateAlertMessage] at hm
          rw [← hm]
        · simp at hm
  · simp [parsePriceData, hl, ho, jsIsNaN, jsSub, jsDiv, jsMul, hb]
  · simp [calculatePriceChangePercent]

/-- Claim C7, witness: the amended theorem applied to the crossing of
`dC7` in `stC7` (message percent 122 equals the parsed 24h change of
`itemC7`) and to `calculatePriceChangePercent` at previous price 0. -/
theorem alert_percent_is_open24h_change_witness :
    msgC7.percent = dC7.priceChangePercent ∧
    (parsePriceData itemC7).map CryptoData.priceChangePercent =
      some (.fin ((111 - 50) / 50 * 100)) ∧
    calculatePriceChangePercent (.fin 111) (.fin 0) = .fin 0 := by
  have h := alert_percent_is_open24h_change stC7 btcSym dC7 0 true
  refine ⟨h.1 msgC7 (by rw [updateC7_eq]), ?_, h.2.2 (.fin 111)⟩
  exact h.2.1 itemC7 111 50 rfl rfl (by norm_num)

/-- Claim C8, counterexample: the claim states that every operation
mutating a band preserves `min ≤ max`, including the manual
`setThresholds` override.  The override stores its arguments without
validation: after `setThresholds` with `min = 2`, `max = 1` the stored
`BTCUSDT` band violates the invariant. -/
theorem setThresholds_unchecked_cex :
    bandsOK initialThresholds = true ∧
    bandsOK (setThresholds initialThresholds btcSym (.fin 2) (.fin 1)) = false := by
  constructor
  · norm_num [bandsOK, initialThresholds, jsLeB, List.all]
  · norm_num [bandsOK, initialThresholds, setThresholds, setEntry, jsLeB,
      List.all, List.filter, btcSym]

/-- Claim C8, amended: `min ≤ max` holds for every band of the initial
static configuration and is preserved by the crossing rebase for any
nonnegative finite crossing price; the `setThresholds` override
preserves it only when the supplied arguments themselves satisfy
`min ≤ max` (the override performs no validation). -/
theorem band_invariant_guarded (m : ThresholdMap) (sym : List Char)
    (p : ℚ) (mn mx : JsNum)
    (hp : 0 ≤ p) (hmm : jsLeB mn mx = true) (hok : bandsOK m = true) :
    bandsOK initialThresholds = true ∧
    bandsOK (updateThresholds m sym (.fin p)) = true ∧
    bandsOK (setThresholds m sym mn mx) = true := by
  refine ⟨?_, ?_, ?_⟩
  · norm_num [bandsOK, initialThresholds, jsLeB, List.all]
  · rw [bandsOK, updateThresholds, setEntry, List.all_cons]
    have hle : jsLeB (jsMul (.fin p) (.fin (1 - configPriceChangeThreshold)))
        (jsMul (.fin p) (.fin (1 + configPriceChangeThreshold))) = true := by
      simp only [jsMul, jsLeB, decide_eq_true_eq]
      have hf : (1 - configPriceChangeThreshold : ℚ) ≤ 1 + configPriceChangeThreshold := by
        norm_num [configPriceChangeThreshold]
      exact mul_le_mul_of_nonneg_left hf hp
    rw [hle, all_of_filter _ _ m hok, Bool.and_self]
  · rw [bandsOK, setThresholds, setEntry, List.all_cons]
    rw [hmm, all_of_filter _ _ m hok, Bool.and_self]

/-- Claim C8, witness: the amended theorem applied to the initial
configuration, a rebase of the `BTCUSDT` band around price 111, and a
valid override with `min = 1`, `max = 2`. -/
theorem band_invariant_guarded_witness :
    bandsOK initialThresholds = true ∧
    bandsOK (updateThresholds initialThresholds btcSym (.fin 111)) = true ∧
    bandsOK (setThresholds initialThresholds btcSym (.fin 1) (.fin 2)) = true := by
  have h0 : bandsOK initialThresholds = true :=
    (band_invariant_guarded [] [] 0 (.fin 0) (.fin 0) le_rfl (by decide) (by decide)).1
  have h := band_invariant_guarded initialThresholds btcSym 111 (.fin 1) (.fin 2)
    (by norm_num) (by decide) h0
  exact ⟨h.1, h.2.1, h.2.2⟩

/-- Claim C9, counterexample: the claim states the codec round-trips
for every symbol matching `^[A-Z]{2,10}USDT$`.  The valid symbol
`AUSDTBUSDT` is a counterexample: `replace('USDT', '')` removes the
first occurrence of `USDT`, which sits inside the base segment, so the
feed id becomes `ABUSDT-USDT` and converting back yields `ABUSDTUSDT`,
not the original symbol. -/
theorem symbol_codec_roundtrip_cex :
    isValidSymbol oddSym = true ∧
    convertOKXSymbolBack (convertSymbolForOKX oddSym) ≠ oddSym := by
  decide

/-- Claim C9, amended: for every symbol of the canonical form — a base
of 2 to 10 uppercase letters followed by `USDT` — whose base contains
no occurrence of the substring `USDT`, the codec round-trips:
`fromFeedId(toFeedId(s)) = s`. -/
theorem symbol_codec_roundtrip (base : List Char)
    (hlen2 : 2 ≤ base.length) (hlen10 : base.length ≤ 10)
    (hup : base.all isUpperAZ = true)
    (hfree : containsSeg usdtChars base = false) :
    isValidSymbol (base ++ usdtChars) = true ∧
    convertOKXSymbolBack (convertSymbolForOKX (base ++ usdtChars)) =
      base ++ usdtChars := by
  have hsuf := usdt_suffix_append base
  constructor
  · rw [isValidSymbol, hsuf]
    simp only [List.all_append, hup, List.length_append]
    have h1 : usdtChars.all isUpperAZ = true := by decide
    have h2 : usdtChars.length = 4 := by decide
    rw [h1, h2]
    simp only [Bool.true_and, Bool.and_eq_true, decide_eq_true_eq]
    omega
  · rw [convertSymbolForOKX, hsuf]
    simp only [if_true, replaceFirst_usdt_suffix base hfree, convertOKXSymbolBack]
    exact replaceFirst_dash base usdtChars hup

/-- Claim C9, witness: the amended theorem applied to the base `BTC`,
round-tripping `BTCUSDT` through `BTC-USDT`. -/
theorem symbol_codec_roundtrip_witness :
    isValidSymbol (['B', 'T', 'C'] ++ usdtChars) = true ∧
    convertOKXSymbolBack (convertSymbolForOKX (['B', 'T', 'C'] ++ usdtChars)) =
      ['B', 'T', 'C'] ++ usdtChars :=
  symbol_codec_roundtrip ['B', 'T', 'C'] (by decide) (by decide) (by decide) (by decide)

/-- Claim C10: only `last` and `open24h` gate tick validity — when
both parse to finite values, the item is kept even if `vol24h`,
`high24h` or `low24h` parsed to `NaN`; the parser substitutes 0 for
each such field via `|| 0`. -/
theorem nonprice_fields_do_not_gate (item : TickerItem) (a b : ℚ)
    (hl : item.last = .fin a) (ho : item.open24h = .fin b) :
    (parsePriceData item).isSome = true ∧
    (item.vol24h = .nan → (parsePriceData item).map CryptoData.volume
      = some (.fin 0)) ∧
    (item.high24h = .nan → (parsePriceData item).map CryptoData.high24h
      = some (.fin 0)) ∧
    (item.low24h = .nan → (parsePriceData item).map CryptoData.low24h
      = some (.fin 0)) := by
  refine ⟨?_, fun hv => ?_, fun hh => ?_, fun hlo => ?_⟩ <;>
    simp [parsePriceData, hl, ho, jsIsNaN, jsOr0, *]

/-- Claim C10, witness: the theorem applied to `itemNanVol`, whose
prices are finite and whose volume and range fields are `NaN`. -/
theorem nonprice_fields_do_not_gate_witness :
    (parsePriceData itemNanVol).isSome = true ∧
    (parsePriceData itemNanVol).map CryptoData.volume = some (.fin 0) ∧
    (parsePriceData itemNanVol).map CryptoData.high24h = some (.fin 0) ∧
    (parsePriceData itemNanVol).map CryptoData.low24h = some (.fin 0) := by
  have h := nonprice_fields_do_not_gate itemNanVol 111 100 rfl rfl
  exact ⟨h.1, h.2.1 rfl, h.2.2.1 rfl, h.2.2.2 rfl⟩
